import Mathlib

/-
Verification of the Naramind social/crypto scraper against its design
specification.  The definitions below are a shallow embedding of the
Python sources under src/scraper/: pure helpers become Lean functions,
the SQLAlchemy session becomes explicit state passing on a `DB` record,
and exceptions raised inside a `try` block become an explicit
`FailPoint` parameter marking where the exception occurred.
-/

/- ## String helpers modelling Python `in` and `str.count`

Python `sub in s` is substring containment; `s.count(sub)` is the
case-sensitive non-overlapping occurrence count (scanning left to
right, skipping `len(sub)` characters after each match; for the empty
pattern Python returns `len(s) + 1`).  We model both on `List Char`. -/

/-- leadMatch sub s: does `sub` match at the front of `s`?  (Models the
position-0 comparison Python performs while scanning.) -/
def leadMatch : List Char → List Char → Bool
  | [], _ => true
  | _ :: _, [] => false
  | a :: as, b :: bs => a == b && leadMatch as bs

/-- hasSub sub s: Python `sub in s` (substring containment). -/
def hasSub (sub : List Char) : List Char → Bool
  | [] => leadMatch sub []
  | c :: rest => leadMatch sub (c :: rest) || hasSub sub rest

/-- pyCountAux sub s skip: non-overlapping occurrence scan for a
non-empty pattern `sub`.  While `skip` is positive the scanner is
still moving past the previous match; at `skip = 0` it tests the
current position and, on a match, counts it and skips the remaining
`sub.length - 1` characters of the match. -/
def pyCountAux (sub : List Char) : List Char → Nat → Nat
  | [], _ => 0
  | c :: rest, 0 =>
    if leadMatch sub (c :: rest) then
      1 + pyCountAux sub rest (sub.length - 1)
    else
      pyCountAux sub rest 0
  | _ :: rest, skip + 1 => pyCountAux sub rest skip

/-- pyCount s sub: Python `s.count(sub)` — the empty pattern yields
`len(s) + 1`, a non-empty pattern is counted by the non-overlapping
scan. -/
def pyCount (s sub : List Char) : Nat :=
  if sub.isEmpty then s.length + 1 else pyCountAux sub s 0

/-- strContains s sub: Python `sub in s` lifted to `String`. -/
def strContains (s sub : String) : Bool :=
  hasSub sub.data s.data

/-- pyCountStr s sub: Python `s.count(sub)` lifted to `String`. -/
def pyCountStr (s sub : String) : Nat :=
  pyCount s.data sub.data

/-- lowerStr models Python `str.lower()` (ASCII letters; the texts and
keywords in this repository are ASCII). -/
def lowerStr (s : String) : String :=
  ⟨s.data.map Char.toLower⟩

/- ## Data model (src/scraper/database_models.py)

Rows are Lean structures; `DateTime` columns become `Int` timestamps,
`Float` columns become `ℚ`. -/

/-- Keyword row: tracked term with category tag and active flag. -/
structure Keyword where
  id : Nat
  keyword : String
  is_active : Bool
deriving DecidableEq, Repr

/-- Post row (the Item): identity is the string primary key `id`. -/
structure Post where
  id : String
  platform_id : Nat
  content : String
  author : String
  author_id : Option String
  post_url : String
  created_at : Int
  language : Option String
  likes : Int
  shares : Int
  comments : Int
  views : Int
deriving DecidableEq, Repr

/-- Sentiment row: one annotation of a Post. -/
structure Sentiment where
  post_id : String
  sentiment_type : String
  confidence_score : ℚ
  sentiment_score : ℚ
  model_version : String
deriving DecidableEq, Repr

/-- KeywordMatch row: join between a Post and a Keyword with an
occurrence count. -/
structure KeywordMatch where
  post_id : String
  keyword_id : Nat
  match_count : Nat
deriving DecidableEq, Repr

/-- Committed database state: the tables the save operations touch,
plus the Keyword reference table they read. -/
structure DB where
  posts : List Post
  sentiments : List Sentiment
  keyword_matches : List KeywordMatch
  keywords : List Keyword
deriving DecidableEq, Repr

/-- RateLimit row for one (platform, endpoint) pair. -/
structure RateLimit where
  requests_made : Nat
  requests_limit : Nat
  reset_time : Int
deriving DecidableEq, Repr

/-- ScrapingJob row. -/
structure ScrapingJob where
  id : String
  platform_id : Nat
  job_type : String
  status : String
  started_at : Option Int
  completed_at : Option Int
  posts_scraped : Int
  errors : Option String
deriving DecidableEq, Repr

/- ## Sentiment analyzer (src/scraper/sentiment_analyzer.py)

TextBlob's polarity/subjectivity signal is an external collaborator:
it is passed in as `base : Option (ℚ × ℚ)`, where `none` models any
exception raised inside the `try` block of `analyze` (TextBlob or the
NLTK feature extraction failing).  The crypto-lexicon adjustment
`positive_ratio - negative_ratio` is computed from NLTK tokenization
and lemmatization (also external), so its value is the parameter
`adjustment`. -/

/-- SentimentResult: the dictionary returned by
`SentimentAnalyzer.analyze` (its four core fields). -/
structure SentimentResult where
  sentiment : String
  confidence : ℚ
  score : ℚ
  model_version : String
deriving DecidableEq, Repr

/-- neutralResult: the neutral/0/0 dictionary returned for empty text
and on any analysis failure. -/
def neutralResult : SentimentResult :=
  { sentiment := "neutral", confidence := 0, score := 0,
    model_version := "textblob_v1.0" }

/-- analyzeCore: the arithmetic of `SentimentAnalyzer.analyze` on the
non-degenerate path — adjust the base polarity by half the lexicon
adjustment, clamp to [-1, 1], classify with the ±0.1 thresholds, and
clamp `|adjusted| * (1 - subjectivity)` to [0, 1] as confidence. -/
def analyzeCore (polarity subjectivity adjustment : ℚ) : SentimentResult :=
  let adjusted0 := polarity + adjustment * 0.5
  let adjusted := max (-1) (min 1 adjusted0)
  let sentiment :=
    if adjusted > 0.1 then "positive"
    else if adjusted < -0.1 then "negative"
    else "neutral"
  let confidence := max 0 (min 1 (|adjusted| * (1 - subjectivity)))
  { sentiment := sentiment, confidence := confidence, score := adjusted,
    model_version := "textblob_v1.0" }

/-- analyze: `SentimentAnalyzer.analyze`.  Empty or whitespace-only
text returns the neutral result before the base signal is consulted
(the result does not depend on `base`); a failure of the base signal
(`base = none`) is absorbed into the same neutral result. -/
def analyze (base : Option (ℚ × ℚ)) (adjustment : ℚ) (text : String) :
    SentimentResult :=
  if text.data.all Char.isWhitespace then neutralResult
  else
    match base with
    | none => neutralResult
    | some (p, s) => analyzeCore p s adjustment

/- ## Keyword extraction (shared by all three scrapers)

`extract_keywords` walks the active Keyword rows and keeps each whose
lowercased term occurs in the lowercased text; the save operations
then build one KeywordMatch row per extracted term, with
`match_count = text.lower().count(keyword.lower())`. -/

/-- extract_keywords: terms of active keywords whose lowercased form
occurs in the lowercased text, in table order. -/
def extract_keywords (kws : List Keyword) (text : String) : List String :=
  ((kws.filter fun k => k.is_active).filter
      fun k => strContains (lowerStr text) (lowerStr k.keyword)).map
    fun k => k.keyword

/-- buildKeywordMatches: the KeywordMatch rows a save operation adds
for a post — for each extracted term, look the Keyword row up again by
exact term and record the non-overlapping occurrence count. -/
def buildKeywordMatches (kws : List Keyword) (postId : String)
    (text : String) : List KeywordMatch :=
  (extract_keywords kws text).filterMap fun kt =>
    match kws.find? (fun k => k.keyword == kt) with
    | some k =>
        some { post_id := postId, keyword_id := k.id,
               match_count := pyCountStr (lowerStr text) (lowerStr kt) }
    | none => none

/- ## Save operations (the Content Store)

`TwitterScraper.save_tweet` (and the analogous `save_post` /
`save_message`) first queries for an existing Post by id and returns
it unchanged if found.  Otherwise it adds the Post and COMMITS, then
adds the Sentiment row and the KeywordMatch rows and COMMITS a second
time; the surrounding `try` rolls the uncommitted part back on an
exception and returns `None`.  `FailPoint` marks where an exception
is raised inside the new-item path of that `try` block. -/

/-- FailPoint: `ok` = no exception; `early` = an exception before the
first commit (nothing persisted after rollback); `late` = an exception
after the first commit but before or during the second (the Post stays
committed, the enrichment rows are rolled back). -/
inductive FailPoint
  | ok
  | early
  | late
deriving DecidableEq, Repr

/-- TweetData: the dictionary built in `search_tweets` for one tweet. -/
structure TweetData where
  id : Nat
  text : String
  author_id : Nat
  created_at : Int
  lang : String
  like_count : Int
  retweet_count : Int
  reply_count : Int
deriving DecidableEq, Repr

/-- mkTweetPost: the Post row `save_tweet` constructs — note the id is
`str(tweet_data['id'])`, the bare native id with no platform name in
front of it. -/
def mkTweetPost (platformId : Nat) (t : TweetData) : Post :=
  { id := toString t.id
    platform_id := platformId
    content := t.text
    author := "@" ++ toString t.author_id
    author_id := some (toString t.author_id)
    post_url := "https://twitter.com/i/web/status/" ++ toString t.id
    created_at := t.created_at
    language := some t.lang
    likes := t.like_count
    shares := t.retweet_count
    comments := t.reply_count
    views := 0 }

/-- saveTweet: `TwitterScraper.save_tweet`.  `senti` is the analyzer's
output for `t.text` (the analyzer itself never raises, see `analyze`).
The committed state advances at each `commit()` of the source. -/
def saveTweet (platformId : Nat) (db : DB) (t : TweetData)
    (senti : SentimentResult) (fail : FailPoint) : DB × Option Post :=
  match db.posts.find? (fun p => p.id == toString t.id) with
  | some existing => (db, some existing)
  | none =>
    match fail with
    | .early => (db, none)
    | .late =>
        ({ db with posts := db.posts ++ [mkTweetPost platformId t] }, none)
    | .ok =>
        let post := mkTweetPost platformId t
        let senRow : Sentiment :=
          { post_id := post.id
            sentiment_type := senti.sentiment
            confidence_score := senti.confidence
            sentiment_score := senti.score
            model_version := senti.model_version }
        let ms := buildKeywordMatches db.keywords post.id t.text
        ({ db with
            posts := db.posts ++ [post]
            sentiments := db.sentiments ++ [senRow]
            keyword_matches := db.keyword_matches ++ ms },
         some post)

/-- RedditData: the dictionary built in `get_subreddit_posts` /
`search_posts` for one submission. -/
structure RedditData where
  id : String
  title : String
  selftext : String
  author : String
  author_id : Option String
  permalink : String
  created_utc : Int
  score : Int
  num_comments : Int
deriving DecidableEq, Repr

/-- redditContent: `save_post` joins title and selftext with a blank
line when the selftext is non-empty (Python truthiness). -/
def redditContent (r : RedditData) : String :=
  if r.selftext ≠ "" then r.title ++ "\n\n" ++ r.selftext else r.title

/-- mkRedditPost: the Post row `save_post` constructs — here the id IS
the platform name joined to the native id: `f"reddit_{post_data['id']}"`. -/
def mkRedditPost (platformId : Nat) (r : RedditData) : Post :=
  { id := "reddit_" ++ r.id
    platform_id := platformId
    content := redditContent r
    author := r.author
    author_id := r.author_id
    post_url := "https://reddit.com" ++ r.permalink
    created_at := r.created_utc
    language := none
    likes := r.score
    shares := 0
    comments := r.num_comments
    views := 0 }

/-- savePost: `RedditScraper.save_post`, with the same two-commit
shape as `saveTweet`. -/
def savePost (platformId : Nat) (db : DB) (r : RedditData)
    (senti : SentimentResult) (fail : FailPoint) : DB × Option Post :=
  match db.posts.find? (fun p => p.id == "reddit_" ++ r.id) with
  | some existing => (db, some existing)
  | none =>
    match fail with
    | .early => (db, none)
    | .late =>
        ({ db with posts := db.posts ++ [mkRedditPost platformId r] }, none)
    | .ok =>
        let post := mkRedditPost platformId r
        let senRow : Sentiment :=
          { post_id := post.id
            sentiment_type := senti.sentiment
            confidence_score := senti.confidence
            sentiment_score := senti.score
            model_version := senti.model_version }
        let ms := buildKeywordMatches db.keywords post.id (redditContent r)
        ({ db with
            posts := db.posts ++ [post]
            sentiments := db.sentiments ++ [senRow]
            keyword_matches := db.keyword_matches ++ ms },
         some post)

/- ## Collection cycle counting (TwitterScraper.scrape_keywords)

For each keyword the scraper fetches a batch from the API (external)
and saves every tweet, incrementing `total_scraped` whenever
`save_tweet` returned a post — whether that post was newly created or
already existed.  The fetched batches are parameters here; each tweet
carries the fail point of its own save. -/

/-- saveTweets: the inner loop of `scrape_keywords` over one fetched
batch, threading the database and the running count — the count is
incremented whenever `save_tweet` returned a post. -/
def saveTweets (platformId : Nat) (senti : TweetData → SentimentResult) :
    DB × Nat → List (TweetData × FailPoint) → DB × Nat
  | acc, [] => acc
  | acc, tf :: rest =>
    let r := saveTweet platformId acc.1 tf.1 (senti tf.1) tf.2
    saveTweets platformId senti
      (r.1, acc.2 + if r.2.isSome then 1 else 0) rest

/-- scrapeKeywords: `TwitterScraper.scrape_keywords` — one fetched
batch per configured keyword, returning the final database and the
cycle's `total_scraped`. -/
def scrapeKeywords (platformId : Nat) (db : DB)
    (batches : List (List (TweetData × FailPoint)))
    (senti : TweetData → SentimentResult) : DB × Nat :=
  batches.foldl (saveTweets platformId senti) (db, 0)

/- ## Rate limiter (TwitterScraper.check_rate_limits / update_rate_limit) -/

/-- check_rate_limits: admission check for one endpoint.  With no
tracked window it admits; with a window whose reset time has passed it
admits; otherwise it denies exactly when `requests_made >=
requests_limit`.  It performs NO database write — in particular it
does not increment `requests_made`. -/
def check_rate_limits (rl : Option RateLimit) (now : Int) : Bool :=
  match rl with
  | some w =>
      if now < w.reset_time then
        if w.requests_limit ≤ w.requests_made then false else true
      else true
  | none => true

/-- update_rate_limit: `TwitterScraper.update_rate_limit` overwrites
(or lazily creates) the tracked window with caller-supplied values. -/
def update_rate_limit (made limit : Nat) (reset : Int) : RateLimit :=
  { requests_made := made, requests_limit := limit, reset_time := reset }

/-- admitStep: one admission check together with the window it leaves
behind — unchanged, because `check_rate_limits` only reads. -/
def admitStep (rl : Option RateLimit) (now : Int) :
    Bool × Option RateLimit :=
  (check_rate_limits rl now, rl)

/-- admitSeq: the outcomes of `n` consecutive admission checks against
the same endpoint before the reset time, each check starting from the
window state the previous one left behind. -/
def admitSeq (rl : Option RateLimit) (now : Int) :
    Nat → List Bool × Option RateLimit
  | 0 => ([], rl)
  | n + 1 =>
    let p := admitSeq rl now n
    let st := admitStep p.2 now
    (p.1 ++ [st.1], st.2)

/- ## Job lifecycle (src/scraper/main_orchestrator.py) -/

/-- create_scraping_job: `NaramindOrchestrator.create_scraping_job` —
a fresh job in status `pending` with empty timestamps and counters. -/
def create_scraping_job (id : String) (platformId : Nat)
    (jobType : String) : ScrapingJob :=
  { id := id
    platform_id := platformId
    job_type := jobType
    status := "pending"
    started_at := none
    completed_at := none
    posts_scraped := 0
    errors := none }

/-- update_scraping_job: `NaramindOrchestrator.update_scraping_job` on
a found job.  The status is always overwritten; `posts_scraped` only
when positive; `errors` only when truthy (Python treats `None` and the
empty string as falsy); `started_at` is stamped on the first
transition to running and `completed_at` on a terminal status. -/
def update_scraping_job (job : ScrapingJob) (status : String)
    (posts_scraped : Int) (errors : Option String) (now : Int) :
    ScrapingJob :=
  let j1 := { job with status := status }
  let j2 := if 0 < posts_scraped then { j1 with posts_scraped := posts_scraped } else j1
  let j3 :=
    match errors with
    | some e => if e = "" then j2 else { j2 with errors := some e }
    | none => j2
  if status = "running" ∧ j3.started_at = none then
    { j3 with started_at := some now }
  else if status = "completed" ∨ status = "failed" then
    { j3 with completed_at := some now }
  else j3

/-- ScrapeOutcome: whether the scraper call inside the cycle's `try`
returned a count or raised with a message. -/
inductive ScrapeOutcome
  | ok (count : Int)
  | err (msg : String)
deriving DecidableEq, Repr

/-- runScrapingCycle: the job updates performed by
`run_twitter_scraping` (and its Telegram/Reddit twins) on the job it
just created: first to `running`, then — depending on whether the
scraper call returned or raised — to `completed` with the count or to
`failed` with the error text.  `t1` and `t2` are the two wall-clock
readings. -/
def runScrapingCycle (job : ScrapingJob) (outcome : ScrapeOutcome)
    (t1 t2 : Int) : ScrapingJob :=
  let j1 := update_scraping_job job "running" 0 none t1
  match outcome with
  | .ok n => update_scraping_job j1 "completed" n none t2
  | .err m => update_scraping_job j1 "failed" 0 (some m) t2

/- ## Helper lemmas about the string scan -/

/-- A contained pattern is found at least once by the non-overlapping
scan (non-empty pattern case). -/
theorem one_le_pyCountAux (sub : List Char) (hsub : sub ≠ [])
    (s : List Char) (h : hasSub sub s = true) : 1 ≤ pyCountAux sub s 0 := by
  induction s with
  | nil =>
    cases sub with
    | nil => exact absurd rfl hsub
    | cons a as => simp [hasSub, leadMatch] at h
  | cons c rest ih =>
    simp only [hasSub, Bool.or_eq_true] at h
    simp only [pyCountAux]
    by_cases hl : leadMatch sub (c :: rest) = true
    · rw [if_pos hl]; omega
    · rw [if_neg hl]
      rcases h with h | h
      · exact absurd h hl
      · exact ih h

/-- A contained pattern has occurrence count at least one. -/
theorem one_le_pyCount (s sub : List Char) (h : hasSub sub s = true) :
    1 ≤ pyCount s sub := by
  rw [pyCount]
  by_cases he : sub.isEmpty
  · rw [if_pos he]; omega
  · rw [if_neg he]
    refine one_le_pyCountAux sub ?_ s h
    intro hnil
    rw [hnil] at he
    exact he rfl

/-- String-level version: Python `sub in s` implies `s.count(sub) >= 1`. -/
theorem one_le_pyCountStr (s sub : String) (h : strContains s sub = true) :
    1 ≤ pyCountStr s sub :=
  one_le_pyCount s.data sub.data h

/-- find? over an append whose left part has no hit. -/
theorem find?_append_of_none {α : Type} (p : α → Bool) {l : List α}
    (l' : List α) (h : List.find? p l = none) :
    List.find? p (l ++ l') = List.find? p l' := by
  rw [List.find?_append, h, Option.none_or]

/-- Every row built by buildKeywordMatches carries the given post id. -/
theorem buildKeywordMatches_post_id (kws : List Keyword) (pid text : String)
    (m : KeywordMatch) (hm : m ∈ buildKeywordMatches kws pid text) :
    m.post_id = pid := by
  simp only [buildKeywordMatches, List.mem_filterMap] at hm
  obtain ⟨kt, _, hk⟩ := hm
  cases hfind : List.find? (fun k => k.keyword == kt) kws with
  | none => rw [hfind] at hk; simp at hk
  | some k =>
    rw [hfind] at hk
    simp only [Option.some.injEq] at hk
    rw [← hk]

/-- Membership in extract_keywords: the term belongs to a keyword row
and its lowercased form occurs in the lowercased text. -/
theorem mem_extract_keywords (kws : List Keyword) (text kt : String)
    (h : kt ∈ extract_keywords kws text) :
    ∃ k, k ∈ kws ∧ k.keyword = kt ∧
      strContains (lowerStr text) (lowerStr kt) = true := by
  simp only [extract_keywords, List.mem_map, List.mem_filter] at h
  obtain ⟨k, ⟨⟨hk, _⟩, hcont⟩, hkt⟩ := h
  subst hkt
  exact ⟨k, hk, rfl, hcont⟩

/-- A consecutive sequence of admission checks leaves the tracked
window exactly as it was: check_rate_limits performs no write. -/
theorem admitSeq_window_unchanged (rl : Option RateLimit) (now : Int) :
    ∀ n : Nat, (admitSeq rl now n).2 = rl := by
  intro n
  induction n with
  | zero => rfl
  | succ n ih => simp only [admitSeq, admitStep, ih]

/- ## Claims -/

/-- C7: for non-empty text with base polarity p in [-1,1] and
subjectivity s in [0,1] and domain-lexicon adjustment a, the result of
`SentimentAnalyzer.analyze` satisfies score = clamp(p + 0.5*a, -1, 1),
the positive/negative/neutral classification at the ±0.1 thresholds,
and confidence = clamp(|score| * (1 - s), 0, 1); consequently the
score lies in [-1, 1] and the confidence in [0, 1]. -/
theorem sentiment_formula_and_bounds (p s a : ℚ) (text : String)
    (hp1 : -1 ≤ p) (hp2 : p ≤ 1) (hs1 : 0 ≤ s) (hs2 : s ≤ 1)
    (ht : text.data.all Char.isWhitespace = false) :
    (analyze (some (p, s)) a text).score = max (-1) (min 1 (p + a * 0.5)) ∧
    ((analyze (some (p, s)) a text).score > 0.1 →
      (analyze (some (p, s)) a text).sentiment = "positive") ∧
    ((analyze (some (p, s)) a text).score < -0.1 →
      (analyze (some (p, s)) a text).sentiment = "negative") ∧
    (-0.1 ≤ (analyze (some (p, s)) a text).score →
      (analyze (some (p, s)) a text).score ≤ 0.1 →
      (analyze (some (p, s)) a text).sentiment = "neutral") ∧
    (analyze (some (p, s)) a text).confidence =
      max 0 (min 1 (|(analyze (some (p, s)) a text).score| * (1 - s))) ∧
    -1 ≤ (analyze (some (p, s)) a text).score ∧
    (analyze (some (p, s)) a text).score ≤ 1 ∧
    0 ≤ (analyze (some (p, s)) a text).confidence ∧
    (analyze (some (p, s)) a text).confidence ≤ 1 := by
  have hA : analyze (some (p, s)) a text = analyzeCore p s a := by
    rw [analyze, if_neg (by simp [ht])]
  rw [hA]
  simp only [analyzeCore]
  refine ⟨by trivial, ?_, ?_, ?_, by trivial, le_max_left _ _,
    max_le (by norm_num) (min_le_left _ _), le_max_left _ _,
    max_le (by norm_num) (min_le_left _ _)⟩
  · intro h
    rw [if_pos h]
  · intro h
    rw [if_neg (by linarith), if_pos h]
  · intro h1 h2
    rw [if_neg (by linarith), if_neg (by linarith)]

/-- Witness for C7 at p = 1/2, s = 0, a = 0, text = "hello". -/
theorem sentiment_formula_and_bounds_witness :
    ((-1 : ℚ) ≤ 1/2 ∧ (1/2 : ℚ) ≤ 1 ∧ (0 : ℚ) ≤ 0 ∧ (0 : ℚ) ≤ 1 ∧
      "hello".data.all Char.isWhitespace = false) ∧
    ((analyze (some ((1:ℚ)/2, 0)) 0 "hello").score =
        max (-1) (min 1 ((1:ℚ)/2 + 0 * 0.5)) ∧
      ((analyze (some ((1:ℚ)/2, 0)) 0 "hello").score > 0.1 →
        (analyze (some ((1:ℚ)/2, 0)) 0 "hello").sentiment = "positive") ∧
      ((analyze (some ((1:ℚ)/2, 0)) 0 "hello").score < -0.1 →
        (analyze (some ((1:ℚ)/2, 0)) 0 "hello").sentiment = "negative") ∧
      (-0.1 ≤ (analyze (some ((1:ℚ)/2, 0)) 0 "hello").score →
        (analyze (some ((1:ℚ)/2, 0)) 0 "hello").score ≤ 0.1 →
        (analyze (some ((1:ℚ)/2, 0)) 0 "hello").sentiment = "neutral") ∧
      (analyze (some ((1:ℚ)/2, 0)) 0 "hello").confidence =
        max 0 (min 1 (|(analyze (some ((1:ℚ)/2, 0)) 0 "hello").score| * (1 - 0))) ∧
      -1 ≤ (analyze (some ((1:ℚ)/2, 0)) 0 "hello").score ∧
      (analyze (some ((1:ℚ)/2, 0)) 0 "hello").score ≤ 1 ∧
      0 ≤ (analyze (some ((1:ℚ)/2, 0)) 0 "hello").confidence ∧
      (analyze (some ((1:ℚ)/2, 0)) 0 "hello").confidence ≤ 1) :=
  ⟨⟨by norm_num, by norm_num, le_refl 0, by norm_num, by decide⟩,
    sentiment_formula_and_bounds (1/2) 0 0 "hello" (by norm_num)
      (by norm_num) (le_refl 0) (by norm_num) (by decide)⟩

/-- C8: `SentimentAnalyzer.analyze` returns the neutral/0/0 result for
every empty or whitespace-only text — independently of the base
signal, which is not consulted — and whenever the base signal fails;
the failure is absorbed, never propagated. -/
theorem analyze_degradation (base : Option (ℚ × ℚ)) (a : ℚ)
    (text : String) :
    (text.data.all Char.isWhitespace = true →
      analyze base a text = neutralResult) ∧
    analyze none a text = neutralResult ∧
    neutralResult.sentiment = "neutral" ∧
    neutralResult.confidence = 0 ∧
    neutralResult.score = 0 := by
  refine ⟨fun h => ?_, ?_, rfl, rfl, rfl⟩
  · rw [analyze.eq_def, if_pos (by simp [h])]
  · rw [analyze.eq_def]
    split
    · rfl
    · rfl

/-- Witness for C8 at whitespace-only text "  " with a live base
signal, and at failing base signal with non-empty text "xyz". -/
theorem analyze_degradation_witness :
    analyze (some (1, 0)) 0 "  " = neutralResult ∧
    analyze none 0 "xyz" = neutralResult :=
  ⟨(analyze_degradation (some (1, 0)) 0 "  ").1 (by decide),
    (analyze_degradation none 0 "xyz").2.1⟩

/- ## Concrete fixtures used by the closed checks below -/

/-- rlSample: a tracked window with 0 of 3 calls made, resetting at
time 100. -/
def rlSample : RateLimit :=
  { requests_made := 0, requests_limit := 3, reset_time := 100 }

/-- dbBitcoin: an empty store whose Keyword table tracks the single
active term "Bitcoin". -/
def dbBitcoin : DB :=
  { posts := [], sentiments := [], keyword_matches := [],
    keywords := [{ id := 1, keyword := "Bitcoin", is_active := true }] }

/-- tweetBitcoin: a fetched tweet whose text is the spec's keyword
test vector. -/
def tweetBitcoin : TweetData :=
  { id := 123, text := "Bitcoin is up, BITCOIN to the moon",
    author_id := 7, created_at := 0, lang := "en", like_count := 0,
    retweet_count := 0, reply_count := 0 }

/-- tweetPlain: a second fetched tweet with a different id. -/
def tweetPlain : TweetData :=
  { id := 456, text := "gm", author_id := 8, created_at := 1,
    lang := "en", like_count := 0, retweet_count := 0, reply_count := 0 }

/-- redditSame: a fetched Reddit submission whose native id collides
with tweetBitcoin's native id. -/
def redditSame : RedditData :=
  { id := "123", title := "hello", selftext := "", author := "u",
    author_id := none, permalink := "/r/x/1", created_utc := 0,
    score := 0, num_comments := 0 }

/-- C2 counterexample: with an existing window (made = 0, allowed = 3)
whose reset time (100) has not passed at now = 0, the fourth
consecutive admission check is still granted — the code never
increments the calls-made counter on admission, so the claimed denial
of the fourth check does not happen. -/
theorem rate_limit_fourth_check_granted_cex :
    ((0 : Int) < rlSample.reset_time) ∧
    (admitSeq (some rlSample) 0 4).1 = [true, true, true, true] := by
  exact ⟨by norm_num [rlSample], rfl⟩

/-- C2 amended: for a window whose reset time has not passed, an
admission check is granted iff calls-made < calls-allowed, but a
granted admission does not increment calls-made — the check leaves the
window untouched — so starting from calls-made = 0 with
calls-allowed = 3 every admission check before the reset succeeds,
the fourth included. -/
theorem rate_limit_check_no_increment (rl : RateLimit) (now : Int)
    (n : Nat) (h : now < rl.reset_time) :
    (check_rate_limits (some rl) now = true ↔
      rl.requests_made < rl.requests_limit) ∧
    (admitSeq (some rl) now n).2 = some rl ∧
    (rl.requests_made < rl.requests_limit →
      ∀ b ∈ (admitSeq (some rl) now n).1, b = true) := by
  have hcheck : check_rate_limits (some rl) now = true ↔
      rl.requests_made < rl.requests_limit := by
    rw [check_rate_limits, if_pos h]
    by_cases hl : rl.requests_limit ≤ rl.requests_made
    · rw [if_pos hl]
      constructor
      · intro hfalse
        exact absurd hfalse (by simp)
      · intro hlt
        omega
    · rw [if_neg hl]
      constructor
      · intro _
        omega
      · intro _
        rfl
  refine ⟨hcheck, admitSeq_window_unchanged (some rl) now n, fun hlt => ?_⟩
  induction n with
  | zero => intro b hb; simp [admitSeq] at hb
  | succ m ih =>
    intro b hb
    simp only [admitSeq, admitStep, admitSeq_window_unchanged,
      List.mem_append, List.mem_singleton] at hb
    rcases hb with hb | hb
    · exact ih b (by simpa using hb)
    · rw [hb]
      exact hcheck.mpr hlt

/-- Witness for C2 amended at the window rlSample, now = 0, four
checks. -/
theorem rate_limit_check_no_increment_witness :
    ((0 : Int) < rlSample.reset_time) ∧
    ((check_rate_limits (some rlSample) 0 = true ↔
        rlSample.requests_made < rlSample.requests_limit) ∧
      (admitSeq (some rlSample) 0 4).2 = some rlSample ∧
      (rlSample.requests_made < rlSample.requests_limit →
        ∀ b ∈ (admitSeq (some rlSample) 0 4).1, b = true)) :=
  ⟨by norm_num [rlSample],
    rate_limit_check_no_increment rlSample 0 4 (by norm_num [rlSample])⟩

/-- C9: every KeywordMatch row added by save_tweet carries the
case-insensitive non-overlapping occurrence count of its keyword's
term in the tweet text, and that count is at least 1 — a row is built
only for a keyword whose lowercased term occurs in the lowercased
text, so zero-count rows are never created. -/
theorem keyword_match_count_positive (platformId : Nat) (db : DB)
    (t : TweetData) (senti : SentimentResult) (m : KeywordMatch)
    (hm : m ∈ (saveTweet platformId db t senti .ok).1.keyword_matches) :
    m ∈ db.keyword_matches ∨
      (1 ≤ m.match_count ∧ ∃ k, k ∈ db.keywords ∧ k.id = m.keyword_id ∧
        m.match_count = pyCountStr (lowerStr t.text) (lowerStr k.keyword)) := by
  rw [saveTweet] at hm
  cases hfind : db.posts.find? (fun p => p.id == toString t.id) with
  | some existing =>
    rw [hfind] at hm
    exact Or.inl hm
  | none =>
    rw [hfind] at hm
    simp only [List.mem_append] at hm
    rcases hm with hm | hm
    · exact Or.inl hm
    · right
      simp only [buildKeywordMatches, List.mem_filterMap] at hm
      obtain ⟨kt, hkt, hrow⟩ := hm
      cases hlook : List.find? (fun k => k.keyword == kt) db.keywords with
      | none => rw [hlook] at hrow; simp at hrow
      | some k =>
        rw [hlook] at hrow
        simp only [Option.some.injEq] at hrow
        obtain ⟨k', _, hkeq, hcont⟩ :=
          mem_extract_keywords db.keywords t.text kt hkt
        have hkmem : k ∈ db.keywords := List.mem_of_find?_eq_some hlook
        have hkkt : k.keyword = kt := by
          have := List.find?_some hlook
          simpa using this
        refine ⟨?_, k, hkmem, ?_, ?_⟩
        · rw [← hrow]
          exact one_le_pyCountStr _ _ hcont
        · rw [← hrow]
        · rw [← hrow, hkkt]

/-- rowBitcoin: the KeywordMatch row expected for tweetBitcoin. -/
def rowBitcoin : KeywordMatch :=
  { post_id := "123", keyword_id := 1, match_count := 2 }

/-- Witness for C9: the spec's own test vector — the keyword "Bitcoin"
against "Bitcoin is up, BITCOIN to the moon" yields the single stored
row, with match_count 2. -/
theorem keyword_match_count_positive_witness :
    (rowBitcoin ∈
      (saveTweet 1 dbBitcoin tweetBitcoin neutralResult .ok).1.keyword_matches) ∧
    (rowBitcoin ∈ dbBitcoin.keyword_matches ∨
      (1 ≤ rowBitcoin.match_count ∧
        ∃ k, k ∈ dbBitcoin.keywords ∧ k.id = rowBitcoin.keyword_id ∧
          rowBitcoin.match_count =
            pyCountStr (lowerStr tweetBitcoin.text) (lowerStr k.keyword))) :=
  ⟨by decide,
    keyword_match_count_positive 1 dbBitcoin tweetBitcoin neutralResult
      rowBitcoin (by decide)⟩

/-- dbWithTweet: a store that already holds the Post for tweetBitcoin. -/
def dbWithTweet : DB :=
  { posts := [mkTweetPost 1 tweetBitcoin], sentiments := [],
    keyword_matches := [], keywords := [] }

/-- sentiRowOf: the Sentiment row a save operation builds from the
analyzer output for a given post id. -/
def sentiRowOf (postId : String) (senti : SentimentResult) : Sentiment :=
  { post_id := postId
    sentiment_type := senti.sentiment
    confidence_score := senti.confidence
    sentiment_score := senti.score
    model_version := senti.model_version }

/-- C1 counterexample: saving a fresh tweet into an empty store with
an exception raised after the first commit leaves the Post committed
with NO Sentiment row and NO KeywordMatch rows — the unit is not
rolled back as a whole, and the intermediate state is observable. -/
theorem save_partial_write_observable_cex :
    (saveTweet 1 dbBitcoin tweetBitcoin neutralResult .late).1.posts.length = 1 ∧
    (saveTweet 1 dbBitcoin tweetBitcoin neutralResult .late).1.sentiments = [] ∧
    (saveTweet 1 dbBitcoin tweetBitcoin neutralResult .late).1.keyword_matches = [] ∧
    (saveTweet 1 dbBitcoin tweetBitcoin neutralResult .late).2 = none := by
  decide

/-- C1 amended: for a raw item not present under its identity key the
save operation persists in TWO commits — the Item alone first, then
the Sentiment and KeywordMatch rows.  A failure before the first
commit rolls everything back; a failure after it leaves the Item
committed without its enrichment and the call returns no post; only
the no-failure run commits all three parts. -/
theorem save_two_phase_commit (platformId : Nat) (db : DB)
    (t : TweetData) (senti : SentimentResult)
    (h : db.posts.find? (fun p => p.id == toString t.id) = none) :
    (saveTweet platformId db t senti .ok).1.posts =
      db.posts ++ [mkTweetPost platformId t] ∧
    (saveTweet platformId db t senti .ok).1.sentiments =
      db.sentiments ++ [sentiRowOf (toString t.id) senti] ∧
    (saveTweet platformId db t senti .ok).1.keyword_matches =
      db.keyword_matches ++
        buildKeywordMatches db.keywords (toString t.id) t.text ∧
    (saveTweet platformId db t senti .ok).2 =
      some (mkTweetPost platformId t) ∧
    saveTweet platformId db t senti .early = (db, none) ∧
    (saveTweet platformId db t senti .late).1.posts =
      db.posts ++ [mkTweetPost platformId t] ∧
    (saveTweet platformId db t senti .late).1.sentiments = db.sentiments ∧
    (saveTweet platformId db t senti .late).1.keyword_matches =
      db.keyword_matches ∧
    (saveTweet platformId db t senti .late).2 = none := by
  simp only [saveTweet, h, sentiRowOf, mkTweetPost]
  exact ⟨trivial, trivial, trivial, trivial, trivial, trivial, trivial,
    trivial, trivial⟩

/-- Witness for C1 amended: the empty Bitcoin store and tweetBitcoin. -/
theorem save_two_phase_commit_witness :
    dbBitcoin.posts.find?
        (fun p => p.id == toString tweetBitcoin.id) = none ∧
    ((saveTweet 1 dbBitcoin tweetBitcoin neutralResult .ok).1.posts =
        dbBitcoin.posts ++ [mkTweetPost 1 tweetBitcoin] ∧
      (saveTweet 1 dbBitcoin tweetBitcoin neutralResult .ok).1.sentiments =
        dbBitcoin.sentiments ++
          [sentiRowOf (toString tweetBitcoin.id) neutralResult] ∧
      (saveTweet 1 dbBitcoin tweetBitcoin neutralResult .ok).1.keyword_matches =
        dbBitcoin.keyword_matches ++
          buildKeywordMatches dbBitcoin.keywords (toString tweetBitcoin.id)
            tweetBitcoin.text ∧
      (saveTweet 1 dbBitcoin tweetBitcoin neutralResult .ok).2 =
        some (mkTweetPost 1 tweetBitcoin) ∧
      saveTweet 1 dbBitcoin tweetBitcoin neutralResult .early =
        (dbBitcoin, none) ∧
      (saveTweet 1 dbBitcoin tweetBitcoin neutralResult .late).1.posts =
        dbBitcoin.posts ++ [mkTweetPost 1 tweetBitcoin] ∧
      (saveTweet 1 dbBitcoin tweetBitcoin neutralResult .late).1.sentiments =
        dbBitcoin.sentiments ∧
      (saveTweet 1 dbBitcoin tweetBitcoin neutralResult .late).1.keyword_matches =
        dbBitcoin.keyword_matches ∧
      (saveTweet 1 dbBitcoin tweetBitcoin neutralResult .late).2 = none) :=
  ⟨by decide,
    save_two_phase_commit 1 dbBitcoin tweetBitcoin neutralResult (by decide)⟩

/-- C3 counterexample: a collection cycle over one fetched tweet whose
Post already exists in the store returns scraped count 1 although no
item was newly created — already-existing items do contribute to the
count. -/
theorem scraped_count_existing_counted_cex :
    (scrapeKeywords 1 dbWithTweet [[(tweetBitcoin, FailPoint.ok)]]
      (fun _ => neutralResult)).2 = 1 ∧
    (scrapeKeywords 1 dbWithTweet [[(tweetBitcoin, FailPoint.ok)]]
      (fun _ => neutralResult)).1.posts.length = dbWithTweet.posts.length := by
  decide

/-- A save that raises no exception always returns a post — the newly
created one or the already existing one. -/
theorem saveTweet_ok_isSome (platformId : Nat) (db : DB) (t : TweetData)
    (senti : SentimentResult) :
    (saveTweet platformId db t senti .ok).2.isSome = true := by
  cases h : db.posts.find? (fun p => p.id == toString t.id) <;>
    simp [saveTweet, h]

/-- Batch-level count: with no exceptions every processed tweet adds
one to the running count. -/
theorem saveTweets_count_all_ok (platformId : Nat)
    (senti : TweetData → SentimentResult)
    (b : List (TweetData × FailPoint)) :
    ∀ acc : DB × Nat, (∀ tf ∈ b, tf.2 = FailPoint.ok) →
      (saveTweets platformId senti acc b).2 = acc.2 + b.length := by
  induction b with
  | nil =>
    intro acc _
    simp [saveTweets]
  | cons tf rest ih =>
    intro acc hok
    have h2 : tf.2 = FailPoint.ok := hok tf (List.mem_cons_self tf rest)
    simp only [saveTweets]
    rw [ih _ (fun x hx => hok x (List.mem_cons_of_mem tf hx))]
    have hsome : (saveTweet platformId acc.1 tf.1 (senti tf.1) tf.2).2.isSome
        = true := by
      rw [h2]
      exact saveTweet_ok_isSome platformId acc.1 tf.1 (senti tf.1)
    rw [if_pos hsome]
    simp only [List.length_cons]
    omega

/-- C3 amended: the cycle's scraped count equals the number of items
for which the save returned a post; when no save raises, that is the
TOTAL number of fetched items — items that already existed under their
identity key are counted just like newly created ones. -/
theorem scraped_count_counts_returned_posts (platformId : Nat) (db : DB)
    (batches : List (List (TweetData × FailPoint)))
    (senti : TweetData → SentimentResult)
    (h : ∀ b ∈ batches, ∀ tf ∈ b, tf.2 = FailPoint.ok) :
    (scrapeKeywords platformId db batches senti).2 =
      (batches.map List.length).sum := by
  suffices H : ∀ (bs : List (List (TweetData × FailPoint))) (acc : DB × Nat),
      (∀ b ∈ bs, ∀ tf ∈ b, tf.2 = FailPoint.ok) →
      (bs.foldl (saveTweets platformId senti) acc).2 =
        acc.2 + (bs.map List.length).sum by
    have := H batches (db, 0) h
    simpa [scrapeKeywords] using this
  intro bs
  induction bs with
  | nil =>
    intro acc _
    simp
  | cons b rest ih =>
    intro acc hok
    rw [List.foldl_cons,
      ih _ (fun x hx => hok x (List.mem_cons_of_mem b hx)),
      saveTweets_count_all_ok platformId senti b acc
        (hok b (List.mem_cons_self b rest))]
    simp only [List.map_cons, List.sum_cons]
    omega

/-- Witness for C3 amended: two one-tweet batches with no failures
yield scraped count 2. -/
theorem scraped_count_counts_returned_posts_witness :
    (∀ b ∈ [[(tweetBitcoin, FailPoint.ok)], [(tweetPlain, FailPoint.ok)]],
      ∀ tf ∈ b, tf.2 = FailPoint.ok) ∧
    (scrapeKeywords 1 dbBitcoin
        [[(tweetBitcoin, FailPoint.ok)], [(tweetPlain, FailPoint.ok)]]
        (fun _ => neutralResult)).2 =
      (([[(tweetBitcoin, FailPoint.ok)],
          [(tweetPlain, FailPoint.ok)]].map List.length).sum) :=
  ⟨by decide,
    scraped_count_counts_returned_posts 1 dbBitcoin
      [[(tweetBitcoin, FailPoint.ok)], [(tweetPlain, FailPoint.ok)]]
      (fun _ => neutralResult) (by decide)⟩

/-- C4 counterexample: the identity key save_tweet stores for the
tweet with native id 123 is the bare string "123" — it does not begin
with the source name in either capitalization, so the Twitter key is
NOT formed by prefixing the native id with the source name. -/
theorem twitter_key_unprefixed_cex :
    (mkTweetPost 1 tweetBitcoin).id = "123" ∧
    leadMatch "twitter".data "123".data = false ∧
    leadMatch "Twitter".data "123".data = false := by
  decide

/-- C4 amended: Reddit (and Telegram) keys prefix the native id with
the source name, but the Twitter key is the bare native id.  For two
raw items from Twitter and Reddit sharing the same native id the keys
nevertheless differ — the prefixed key is strictly longer — and both
items are stored. -/
theorem cross_source_keys_differ (pid1 pid2 : Nat) (db : DB)
    (t : TweetData) (r : RedditData) (s1 s2 : SentimentResult)
    (hid : r.id = toString t.id)
    (h1 : db.posts.find? (fun p => p.id == toString t.id) = none)
    (h2 : db.posts.find? (fun p => p.id == "reddit_" ++ r.id) = none) :
    (mkTweetPost pid1 t).id ≠ (mkRedditPost pid2 r).id ∧
    mkTweetPost pid1 t ∈
      (savePost pid2 (saveTweet pid1 db t s1 .ok).1 r s2 .ok).1.posts ∧
    mkRedditPost pid2 r ∈
      (savePost pid2 (saveTweet pid1 db t s1 .ok).1 r s2 .ok).1.posts := by
  have hkey : (mkTweetPost pid1 t).id ≠ (mkRedditPost pid2 r).id := by
    simp only [mkTweetPost, mkRedditPost]
    intro heq
    have hlen := congrArg String.length heq
    rw [String.length_append, hid] at hlen
    have h7 : "reddit_".length = 7 := rfl
    omega
  have hposts1 : (saveTweet pid1 db t s1 .ok).1.posts =
      db.posts ++ [mkTweetPost pid1 t] := by
    simp only [saveTweet, h1]
  have hpred : ((mkTweetPost pid1 t).id == "reddit_" ++ r.id) = false := by
    rw [beq_eq_false_iff_ne]
    exact hkey
  have hfind2 : (saveTweet pid1 db t s1 .ok).1.posts.find?
      (fun p => p.id == "reddit_" ++ r.id) = none := by
    rw [hposts1, find?_append_of_none _ _ h2]
    simp [List.find?, hpred]
  have hposts2 : (savePost pid2 (saveTweet pid1 db t s1 .ok).1 r s2 .ok).1.posts
      = (saveTweet pid1 db t s1 .ok).1.posts ++ [mkRedditPost pid2 r] := by
    simp only [savePost, hfind2]
  refine ⟨hkey, ?_, ?_⟩
  · rw [hposts2, hposts1]
    simp
  · rw [hposts2]
    simp

/-- Witness for C4 amended: tweetBitcoin (native id 123) and
redditSame (native id "123") saved into the empty Bitcoin store. -/
theorem cross_source_keys_differ_witness :
    (redditSame.id = toString tweetBitcoin.id ∧
      dbBitcoin.posts.find?
        (fun p => p.id == toString tweetBitcoin.id) = none ∧
      dbBitcoin.posts.find?
        (fun p => p.id == "reddit_" ++ redditSame.id) = none) ∧
    ((mkTweetPost 1 tweetBitcoin).id ≠ (mkRedditPost 2 redditSame).id ∧
      mkTweetPost 1 tweetBitcoin ∈
        (savePost 2 (saveTweet 1 dbBitcoin tweetBitcoin neutralResult .ok).1
          redditSame neutralResult .ok).1.posts ∧
      mkRedditPost 2 redditSame ∈
        (savePost 2 (saveTweet 1 dbBitcoin tweetBitcoin neutralResult .ok).1
          redditSame neutralResult .ok).1.posts) :=
  ⟨⟨by decide, by decide, by decide⟩,
    cross_source_keys_differ 1 2 dbBitcoin tweetBitcoin redditSame
      neutralResult neutralResult (by decide) (by decide) (by decide)⟩

/-- C5: when the identity key already exists, the save operation
returns the existing Item and performs no writes.  After a successful
first save of a fresh item, a second save of the same raw item — with
any analyzer output and even with an injected exception — leaves the
store unchanged and returns the stored post; the store holds exactly
one Post and one Sentiment under that key, and the KeywordMatch rows
under that key are exactly the first save's enrichment. -/
theorem save_idempotent (platformId : Nat) (db : DB) (t : TweetData)
    (s1 s2 : SentimentResult) (fail2 : FailPoint)
    (h1 : db.posts.find? (fun p => p.id == toString t.id) = none)
    (h2 : db.sentiments.filter
      (fun srow => srow.post_id == toString t.id) = [])
    (h3 : db.keyword_matches.filter
      (fun m => m.post_id == toString t.id) = []) :
    saveTweet platformId (saveTweet platformId db t s1 .ok).1 t s2 fail2 =
      ((saveTweet platformId db t s1 .ok).1,
        some (mkTweetPost platformId t)) ∧
    ((saveTweet platformId db t s1 .ok).1.posts.filter
        (fun p => p.id == toString t.id)).length = 1 ∧
    ((saveTweet platformId db t s1 .ok).1.sentiments.filter
        (fun srow => srow.post_id == toString t.id)).length = 1 ∧
    (saveTweet platformId db t s1 .ok).1.keyword_matches.filter
        (fun m => m.post_id == toString t.id) =
      buildKeywordMatches db.keywords (toString t.id) t.text := by
  have hposts1 : (saveTweet platformId db t s1 .ok).1.posts =
      db.posts ++ [mkTweetPost platformId t] := by
    simp only [saveTweet, h1]
  have hsen1 : (saveTweet platformId db t s1 .ok).1.sentiments =
      db.sentiments ++ [sentiRowOf (toString t.id) s1] := by
    simp only [saveTweet, h1, sentiRowOf, mkTweetPost]
  have hkm1 : (saveTweet platformId db t s1 .ok).1.keyword_matches =
      db.keyword_matches ++
        buildKeywordMatches db.keywords (toString t.id) t.text := by
    simp only [saveTweet, h1, mkTweetPost]
  have hfind1 : (saveTweet platformId db t s1 .ok).1.posts.find?
      (fun p => p.id == toString t.id) = some (mkTweetPost platformId t) := by
    rw [hposts1, find?_append_of_none _ _ h1]
    simp [List.find?, mkTweetPost]
  refine ⟨?_, ?_, ?_, ?_⟩
  · rw [saveTweet.eq_def, hfind1]
  · rw [hposts1, List.filter_append]
    have hfil : db.posts.filter (fun p => p.id == toString t.id) = [] :=
      List.filter_eq_nil_iff.mpr (by simpa using List.find?_eq_none.mp h1)
    rw [hfil]
    simp [List.filter, mkTweetPost]
  · rw [hsen1, List.filter_append, h2]
    simp [List.filter, sentiRowOf]
  · rw [hkm1, List.filter_append, h3]
    rw [List.nil_append]
    refine List.filter_eq_self.mpr ?_
    intro m hm
    simpa using buildKeywordMatches_post_id db.keywords (toString t.id)
      t.text m hm

/-- Witness for C5 at the empty Bitcoin store and tweetBitcoin, with
the second save given a different analyzer output and an injected
late exception. -/
theorem save_idempotent_witness :
    (dbBitcoin.posts.find?
        (fun p => p.id == toString tweetBitcoin.id) = none ∧
      dbBitcoin.sentiments.filter
        (fun srow => srow.post_id == toString tweetBitcoin.id) = [] ∧
      dbBitcoin.keyword_matches.filter
        (fun m => m.post_id == toString tweetBitcoin.id) = []) ∧
    (saveTweet 1 (saveTweet 1 dbBitcoin tweetBitcoin neutralResult .ok).1
        tweetBitcoin (analyzeCore 1 0 0) .late =
      ((saveTweet 1 dbBitcoin tweetBitcoin neutralResult .ok).1,
        some (mkTweetPost 1 tweetBitcoin)) ∧
      ((saveTweet 1 dbBitcoin tweetBitcoin neutralResult .ok).1.posts.filter
          (fun p => p.id == toString tweetBitcoin.id)).length = 1 ∧
      ((saveTweet 1 dbBitcoin tweetBitcoin neutralResult .ok).1.sentiments.filter
          (fun srow => srow.post_id == toString tweetBitcoin.id)).length = 1 ∧
      (saveTweet 1 dbBitcoin tweetBitcoin neutralResult .ok).1.keyword_matches.filter
          (fun m => m.post_id == toString tweetBitcoin.id) =
        buildKeywordMatches dbBitcoin.keywords (toString tweetBitcoin.id)
          tweetBitcoin.text) :=
  ⟨⟨by decide, by decide, by decide⟩,
    save_idempotent 1 dbBitcoin tweetBitcoin neutralResult
      (analyzeCore 1 0 0) .late (by decide) (by decide) (by decide)⟩

/-- jobDone: a job already in the terminal state completed. -/
def jobDone : ScrapingJob :=
  { id := "j", platform_id := 1, job_type := "keyword_search",
    status := "completed", started_at := some 1, completed_at := some 2,
    posts_scraped := 5, errors := none }

/-- C6 counterexample: the update operation does not guard terminal
states — applying it with status running to a job already completed
changes the job's state back to running, so it is not true that no
operation can change a terminal job's state. -/
theorem job_terminal_not_guarded_cex :
    jobDone.status = "completed" ∧
    (update_scraping_job jobDone "running" 0 none 10).status = "running" := by
  decide

/-- C6 amended: within an orchestrator cycle every job is created
pending, transitioned exactly twice — to running (stamping
started_at), then to exactly one terminal state (stamping
completed_at) — and the cycle performs no further update; the update
operation itself, however, would let a direct call reopen a terminal
job (see the counterexample). -/
theorem job_lifecycle_two_transitions (id : String) (pid : Nat)
    (jt : String) (outcome : ScrapeOutcome) (t1 t2 : Int) :
    (create_scraping_job id pid jt).status = "pending" ∧
    (update_scraping_job (create_scraping_job id pid jt)
      "running" 0 none t1).status = "running" ∧
    (update_scraping_job (create_scraping_job id pid jt)
      "running" 0 none t1).started_at = some t1 ∧
    ((runScrapingCycle (create_scraping_job id pid jt) outcome t1 t2).status
        = "completed" ∨
      (runScrapingCycle (create_scraping_job id pid jt) outcome t1 t2).status
        = "failed") ∧
    (runScrapingCycle (create_scraping_job id pid jt) outcome t1 t2).started_at
      = some t1 ∧
    (runScrapingCycle (create_scraping_job id pid jt) outcome t1 t2).completed_at
      = some t2 := by
  cases outcome <;>
    refine ⟨rfl, ?_, ?_, ?_, ?_, ?_⟩ <;>
      simp +decide [runScrapingCycle, update_scraping_job,
        create_scraping_job, apply_ite]

/-- C10: updating an existing job with posts_scraped = 0 and
errors = None leaves the stored count and error text unchanged — a
recorded count is never overwritten with zero — and modifies only the
status and the appropriate timestamp: started_at exactly on a first
transition to running, completed_at exactly on a terminal status. -/
theorem job_update_frame (job : ScrapingJob) (status : String)
    (now : Int) :
    (update_scraping_job job status 0 none now).posts_scraped =
      job.posts_scraped ∧
    (update_scraping_job job status 0 none now).errors = job.errors ∧
    (update_scraping_job job status 0 none now).id = job.id ∧
    (update_scraping_job job status 0 none now).platform_id =
      job.platform_id ∧
    (update_scraping_job job status 0 none now).job_type = job.job_type ∧
    (update_scraping_job job status 0 none now).status = status ∧
    ((update_scraping_job job status 0 none now).started_at =
        job.started_at ∨
      (status = "running" ∧ job.started_at = none ∧
        (update_scraping_job job status 0 none now).started_at =
          some now)) ∧
    ((update_scraping_job job status 0 none now).completed_at =
        job.completed_at ∨
      ((status = "completed" ∨ status = "failed") ∧
        (update_scraping_job job status 0 none now).completed_at =
          some now)) := by
  have h0 : ¬ ((0 : Int) < 0) := by norm_num
  simp only [update_scraping_job, if_neg h0]
  split_ifs with hA hB
  · exact ⟨rfl, rfl, rfl, rfl, rfl, rfl, Or.inr ⟨hA.1, hA.2, rfl⟩,
      Or.inl rfl⟩
  · exact ⟨rfl, rfl, rfl, rfl, rfl, rfl, Or.inl rfl, Or.inr ⟨hB, rfl⟩⟩
  · exact ⟨rfl, rfl, rfl, rfl, rfl, rfl, Or.inl rfl, Or.inl rfl⟩
